import Mathlib

/-!
Shallow embedding of the Rendered Page Analysis Engine of this repository:
the extractor pipeline of apps/web/scripts/deep_seo_audit.py (function audit)
and the metadata/screenshot pipeline of apps/web/scripts/capture_screenshot.py
(function capture).  Rendered-page measurements (getBoundingClientRect values,
computed font sizes, layout-shift entry values) are modelled as rationals;
JavaScript Math.round is floor of x + 1/2 and Python round is round-half-even,
both made explicit below.  Each in-page evaluation closure becomes a pure Lean
function over the list of DOM elements its CSS selector matched, in document
order, exactly as the source closures map and filter them.
-/

/-- Bounding client rect of a DOM element, in viewport coordinates. -/
structure Rect where
  top : ℚ
  bottom : ℚ
  left : ℚ
  width : ℚ
  height : ℚ

deriving instance DecidableEq for Rect

/-- JavaScript Math.round: nearest integer, half away from zero upward,
which for all reals equals the floor of x + 1/2. -/
def jsRound (x : ℚ) : ℤ := ⌊x + 1/2⌋

/-- Python round to an integer: nearest integer, ties to even
(banker rounding), as used by round(x, n) in the source. -/
def rInt (x : ℚ) : ℤ :=
  if x - ⌊x⌋ < 1/2 then ⌊x⌋
  else if 1/2 < x - ⌊x⌋ then ⌊x⌋ + 1
  else if ⌊x⌋ % 2 = 0 then ⌊x⌋ else ⌊x⌋ + 1

/-- Python round(x, d): round to d decimal digits, ties to even. -/
def pyRound (d : ℕ) (x : ℚ) : ℚ := (rInt (x * 10 ^ d) : ℚ) / 10 ^ d

/-- Python min over a nonempty list of numbers; none for the empty list. -/
def pyMin : List ℚ → Option ℚ
  | [] => none
  | x :: xs => some (xs.foldl min x)

/-- The source expression round(sum(xs)/len(xs), 1) if xs else None. -/
def pyAvg1 : List ℚ → Option ℚ
  | [] => none
  | x :: xs => some (pyRound 1 (((x :: xs).sum) / ((x :: xs).length : ℚ)))

/-- Does one character list start with another. -/
def startsWithL : List Char → List Char → Bool
  | _, [] => true
  | [], _ :: _ => false
  | c :: s, d :: t => c == d && startsWithL s t

/-- Does one character list contain another as a contiguous run. -/
def containsL : List Char → List Char → Bool
  | [], pat => startsWithL [] pat
  | c :: tl, pat => startsWithL (c :: tl) pat || containsL tl pat

/-- JavaScript String.prototype.includes over the character sequences. -/
def strContains (s pat : String) : Bool := containsL s.data pat.data

/-- JavaScript String.prototype.trim and python str.strip over the character
sequence: drop leading and trailing whitespace. -/
def jsTrim (s : String) : String :=
  String.mk (((s.data.dropWhile Char.isWhitespace).reverse.dropWhile Char.isWhitespace).reverse)

/-- JavaScript String.prototype.toLowerCase over the character sequence. -/
def jsToLower (s : String) : String := String.mk (s.data.map Char.toLower)

/-- JavaScript String.prototype.slice(0, n): the first n characters. -/
def jsTake (s : String) (n : ℕ) : String := String.mk (s.data.take n)

/-- The JavaScript expression a || b over a nullable attribute value:
null and the empty string are falsy, any other string is kept. -/
def truthyOr (a : Option String) (b : String) : String :=
  match a with
  | some s => if s = "" then b else s
  | none => b

/-- JavaScript String.prototype.slice(-n): the last n characters. -/
def takeRight (s : String) (n : ℕ) : String :=
  String.mk (s.data.drop (s.data.length - n))

/-- A DOM element matched by the h1..h6 selector of audit. -/
structure HeadingEl where
  tag : String
  text : String
  fontSize : String
  fontWeight : String
  rect : Rect

deriving instance DecidableEq for HeadingEl

/-- One entry of the headings fragment of the audit report. -/
structure HeadingInfo where
  tag : String
  text : String
  fontSize : String
  fontWeight : String
  top : ℤ
  aboveFold : Bool

deriving instance DecidableEq for HeadingInfo

/-- The per-element closure of the heading extractor of audit. -/
def mkHeading (vh : ℚ) (e : HeadingEl) : HeadingInfo :=
  { tag := e.tag
    text := jsTake (jsTrim e.text) 80
    fontSize := e.fontSize
    fontWeight := e.fontWeight
    top := jsRound e.rect.top
    aboveFold := decide (e.rect.top < vh) && decide (0 < e.rect.bottom) }

/-- A DOM element matched by the a, button selector of audit. -/
structure TapEl where
  text : String
  tag : String
  rect : Rect

deriving instance DecidableEq for TapEl

/-- One entry of the tap-target fragment of the audit report. -/
structure TapTarget where
  text : String
  tag : String
  width : ℤ
  height : ℤ
  top : ℤ
  tooSmall : Bool

deriving instance DecidableEq for TapTarget

/-- The per-element closure of the tap-target extractor: reported sizes are
rounded, while tooSmall tests the unrounded rect dimensions. -/
def mkTapTarget (e : TapEl) : TapTarget :=
  { text := jsTake (jsTrim e.text) 40
    tag := e.tag
    width := jsRound e.rect.width
    height := jsRound e.rect.height
    top := jsRound e.rect.top
    tooSmall := decide (e.rect.width < 44) || decide (e.rect.height < 44) }

/-- The tap-target extractor: map then drop entries whose rounded
width or height is not positive. -/
def tapTargets (els : List TapEl) : List TapTarget :=
  (els.map mkTapTarget).filter (fun t => decide (0 < t.width) && decide (0 < t.height))

/-- The python list comprehension small_targets of audit. -/
def smallTargets (els : List TapEl) : List TapTarget :=
  (tapTargets els).filter (fun t => t.tooSmall)

/-- An element found by page.query_selector, carrying its present attributes. -/
structure MetaEl where
  attrs : List (String × String)

deriving instance DecidableEq for MetaEl

/-- element.get_attribute(a): null when the attribute is absent. -/
def getAttr (e : MetaEl) (a : String) : Option String :=
  (e.attrs.find? (fun kv => kv.1 == a)).map (fun kv => kv.2)

/-- The nested helper get_meta of audit: el.get_attribute(attr) if el else None,
where el is the result of page.query_selector(selector). -/
def get_meta (el : Option MetaEl) (attr : String) : Option String :=
  match el with
  | some e => getAttr e attr
  | none => none

/-- Results of the nine page.query_selector calls of the meta section of audit. -/
structure MetaQueryResults where
  ogTitle : Option MetaEl
  ogDescription : Option MetaEl
  ogImage : Option MetaEl
  ogUrl : Option MetaEl
  twitterCard : Option MetaEl
  twitterTitle : Option MetaEl
  canonical : Option MetaEl
  robots : Option MetaEl
  viewport : Option MetaEl

deriving instance DecidableEq for MetaQueryResults

/-- The meta sub-record of the audit report. -/
structure MetaBlock where
  og_title : Option String
  og_description : Option String
  og_image : Option String
  og_url : Option String
  twitter_card : Option String
  twitter_title : Option String
  canonical : Option String
  robots : Option String
  viewport : Option String

deriving instance DecidableEq for MetaBlock

/-- Assembly of the meta sub-record from the nine query results, with the
attribute names used at each call site of get_meta in the source. -/
def metaBlock (q : MetaQueryResults) : MetaBlock :=
  { og_title := get_meta q.ogTitle ("content")
    og_description := get_meta q.ogDescription ("content")
    og_image := get_meta q.ogImage ("content")
    og_url := get_meta q.ogUrl ("content")
    twitter_card := get_meta q.twitterCard ("content")
    twitter_title := get_meta q.twitterTitle ("content")
    canonical := get_meta q.canonical ("href")
    robots := get_meta q.robots ("content")
    viewport := get_meta q.viewport ("content") }

/-- A DOM element matched by the img selector of audit. -/
structure ImgEl where
  src : Option String
  alt : Option String
  rect : Rect

deriving instance DecidableEq for ImgEl

/-- One entry of the images fragment of the audit report. -/
structure ImageInfo where
  src : String
  alt : Option String
  hasAlt : Bool
  width : ℤ
  height : ℤ

deriving instance DecidableEq for ImageInfo

/-- The per-element closure of the image extractor of audit. -/
def mkImage (e : ImgEl) : ImageInfo :=
  { src := takeRight (truthyOr e.src "") 40
    alt := e.alt
    hasAlt := decide (0 < (jsTrim (truthyOr e.alt "")).length)
    width := jsRound e.rect.width
    height := jsRound e.rect.height }

/-- One entry of document.fonts as reported by the font extractor. -/
structure FontFace where
  family : String
  status : String

deriving instance DecidableEq for FontFace

/-- A DOM element matched by the p, span, li selector of audit, with the
parseFloat of its computed font size. -/
structure TextEl where
  rect : Rect
  fontSizePx : ℚ

deriving instance DecidableEq for TextEl

/-- The body_font_sizes evaluation of audit: keep in-viewport elements with
positive rect height, take their computed font sizes, keep positive sizes. -/
def bodyFontSizes (vh : ℚ) (els : List TextEl) : List ℚ :=
  ((els.filter (fun e =>
      decide (e.rect.top < vh) && decide (0 < e.rect.bottom) && decide (0 < e.rect.height))).map
    (fun e => e.fontSizePx)).filter (fun s => decide (0 < s))

/-- The in-page CLS evaluation of audit: the reduce over layout-shift entry
values when the performance query succeeds, 0 when it is unsupported or throws
(the try/catch leaves cls at 0). -/
def clsRaw (supported : Bool) (entries : List ℚ) : ℚ :=
  if supported then entries.sum else 0

/-- The rendered page as seen by the extractor pipeline of audit: for each
selector-based extractor, the elements its selector matched in document order,
plus the performance-API state.  window.innerHeight equals the configured
viewport height. -/
structure AuditPage where
  viewportWidth : ℤ
  viewportHeight : ℤ
  clsSupported : Bool
  clsEntries : List ℚ
  headingEls : List HeadingEl
  tapEls : List TapEl
  metaQ : MetaQueryResults
  ldJsonTexts : List String
  imgEls : List ImgEl
  fontFaces : List FontFace
  textEls : List TextEl

deriving instance DecidableEq for AuditPage

/-- The dictionary returned by audit. -/
structure AuditReport where
  url : String
  viewport : String
  cls_score : ℚ
  headings : List HeadingInfo
  small_tap_targets_count : ℕ
  small_tap_targets_sample : List TapTarget
  meta : MetaBlock
  structured_data_count : ℕ
  structured_data : List String
  images : List ImageInfo
  images_missing_alt : List ImageInfo
  fonts : List FontFace
  min_above_fold_font_px : Option ℚ
  avg_above_fold_font_px : Option ℚ

deriving instance DecidableEq for AuditReport

/-- The audit function of deep_seo_audit.py, from navigation-settled page
state to the returned report. -/
def audit (url : String) (pg : AuditPage) : AuditReport :=
  let vh : ℚ := (pg.viewportHeight : ℚ)
  let smalls := smallTargets pg.tapEls
  let ldBlocks := pg.ldJsonTexts.map jsTrim
  let imgs := pg.imgEls.map mkImage
  let sizes := bodyFontSizes vh pg.textEls
  { url := url
    viewport := toString pg.viewportWidth ++ "x" ++ toString pg.viewportHeight
    cls_score := pyRound 4 (clsRaw pg.clsSupported pg.clsEntries)
    headings := pg.headingEls.map (mkHeading vh)
    small_tap_targets_count := smalls.length
    small_tap_targets_sample := smalls.take 5
    meta := metaBlock pg.metaQ
    structured_data_count := ldBlocks.length
    structured_data := ldBlocks
    images := imgs
    images_missing_alt := imgs.filter (fun i => !i.hasAlt)
    fonts := pg.fontFaces.take 10
    min_above_fold_font_px := pyMin sizes
    avg_above_fold_font_px := pyAvg1 sizes }

/-- A DOM element matched by the a, button selector of capture. -/
structure CtaEl where
  text : String
  tag : String
  rect : Rect

deriving instance DecidableEq for CtaEl

/-- One entry of the ctas fragment of the capture report. -/
structure CtaCandidate where
  text : String
  tag : String
  top : ℤ
  left : ℤ
  width : ℤ
  height : ℤ
  visible : Bool

deriving instance DecidableEq for CtaCandidate

/-- The CTA keyword filter of capture over the trimmed lowercased innerText. -/
def ctaMatch (e : CtaEl) : Bool :=
  let t := jsToLower (jsTrim e.text)
  strContains t ("get") || strContains t ("start") || strContains t ("book") ||
  strContains t ("contact") || strContains t ("try") || strContains t ("demo") ||
  strContains t ("free") || strContains t ("sign") || strContains t ("request")

/-- The per-element closure of the CTA extractor of capture. -/
def mkCta (vh : ℚ) (e : CtaEl) : CtaCandidate :=
  { text := jsTrim e.text
    tag := e.tag
    top := jsRound e.rect.top
    left := jsRound e.rect.left
    width := jsRound e.rect.width
    height := jsRound e.rect.height
    visible := decide (e.rect.top < vh) && decide (0 < e.rect.bottom) }

/-- A DOM element matched by the img, svg selector of capture, with the
attributes and ancestor facts its filter consults. -/
structure LogoEl where
  tag : String
  src : Option String
  alt : Option String
  ariaLabel : Option String
  inHeader : Bool
  inNav : Bool
  rect : Rect

deriving instance DecidableEq for LogoEl

/-- One entry of the logo_candidates fragment of the capture report. -/
structure LogoCandidate where
  tag : String
  src : String
  visible : Bool

deriving instance DecidableEq for LogoCandidate

/-- The src variable of the logo filter of capture: the first truthy of the
src, alt and aria-label attributes (null and empty string are falsy),
lowercased. -/
def logoKey (e : LogoEl) : String :=
  jsToLower (truthyOr e.src (truthyOr e.alt (truthyOr e.ariaLabel "")))

/-- The logo filter of capture as written in the source. -/
def logoPred (e : LogoEl) : Bool :=
  strContains (logoKey e) ("logo") || e.inHeader || e.inNav

/-- The per-element closure of the logo extractor: note that visible tests
only the top edge against the viewport height. -/
def mkLogo (vh : ℚ) (e : LogoEl) : LogoCandidate :=
  { tag := e.tag
    src := truthyOr e.src "(svg)"
    visible := decide (e.rect.top < vh) }

/-- The logo_candidates evaluation of capture: filter, first three, map. -/
def logoCandidates (vh : ℚ) (els : List LogoEl) : List LogoCandidate :=
  ((els.filter logoPred).take 3).map (mkLogo vh)

/-- The logo selection predicate as the specification words it: the element
lies inside a header or nav ancestor, or its src, alt or aria-label attribute
mentions the substring logo case-insensitively.  Stated for comparison with
logoPred, which is translated from the source. -/
def specLogoPred (e : LogoEl) : Bool :=
  strContains (jsToLower (truthyOr e.src "")) ("logo")
  || strContains (jsToLower (truthyOr e.alt "")) ("logo")
  || strContains (jsToLower (truthyOr e.ariaLabel "")) ("logo")
  || e.inHeader || e.inNav

/-- The rendered page as seen by capture. -/
structure CapturePage where
  viewportWidth : ℤ
  viewportHeight : ℤ
  title : String
  h1Texts : List String
  h2Texts : List String
  metaDescEl : Option MetaEl
  ctaEls : List CtaEl
  scrollWidth : ℤ
  clientWidth : ℤ
  logoEls : List LogoEl

deriving instance DecidableEq for CapturePage

/-- The dictionary returned by capture. -/
structure CaptureReport where
  title : String
  h1s : List String
  h2s : List String
  meta_description : Option String
  ctas : List CtaCandidate
  has_horizontal_scroll : Bool
  scroll_width : ℤ
  client_width : ℤ
  logo_candidates : List LogoCandidate

deriving instance DecidableEq for CaptureReport

/-- The capture function of capture_screenshot.py, from navigation-settled
page state to the returned report (the screenshot write is a side effect the
report does not depend on). -/
def captureReport (pg : CapturePage) : CaptureReport :=
  let vh : ℚ := (pg.viewportHeight : ℚ)
  { title := pg.title
    h1s := pg.h1Texts.map jsTrim
    h2s := (pg.h2Texts.map jsTrim).take 5
    meta_description := get_meta pg.metaDescEl ("content")
    ctas := ((pg.ctaEls.filter ctaMatch).take 8).map (mkCta vh)
    has_horizontal_scroll := decide (pg.clientWidth < pg.scrollWidth)
    scroll_width := pg.scrollWidth
    client_width := pg.clientWidth
    logo_candidates := logoCandidates vh pg.logoEls }

/-- One operation of the browser-session lifecycle of audit and capture, at
the granularity the teardown claim needs. -/
inductive SessAction where
  | launch
  | newContext
  | newPage
  | navigate
  | waitMs
  | evalQuery
  | screenshotWrite
  | closeBrowser

deriving instance DecidableEq for SessAction

/-- Resource state of one invocation: whether the playwright driver is
running and whether the launched browser process is alive. -/
structure SessState where
  pwRunning : Bool
  browserOpen : Bool

deriving instance DecidableEq for SessState

/-- Effect of a completed operation on the resource state. -/
def applyAction : SessAction → SessState → SessState
  | SessAction.launch, st => { st with browserOpen := true }
  | SessAction.closeBrowser, st => { st with browserOpen := false }
  | _, st => st

/-- Which operations can raise: launching, context and page creation,
navigation (timeout, dns), in-page evaluation (page context destroyed),
screenshot write (makedirs or disk failure) and even browser.close itself. -/
def actionFallible : SessAction → Bool
  | SessAction.waitMs => false
  | _ => true

/-- Run the body of the with block: operations execute in order; if the
failure oracle makes an operation raise at its index, the rest of the body is
skipped (the raised exception propagates), mirroring python control flow.
The boolean records whether the body completed normally. -/
def runSteps (oracle : ℕ → Bool) : ℕ → List SessAction → SessState → (Bool × SessState)
  | _, [], st => (true, st)
  | i, a :: rest, st =>
    if actionFallible a && oracle i then (false, st)
    else runSteps oracle (i + 1) rest (applyAction a st)

/-- Modelled from the spec: the source wraps each invocation in a
with sync_playwright() block, and the python with statement runs the exit
handler of the context manager on every path out of the block, normal return
or raised exception; per the teardown contract of the spec, stopping the
playwright driver closes the context and terminates every browser process it
launched.  That scoped-exit semantics, which is library behaviour and not in
src/, is this definition. -/
def pwExit (_st : SessState) : SessState :=
  { pwRunning := false, browserOpen := false }

/-- State at entry of the with block: driver running, no browser yet. -/
def initState : SessState := { pwRunning := true, browserOpen := false }

/-- The with-block body of audit in deep_seo_audit.py: launch, context, page,
goto, fixed wait, the in-page evaluations (cls, headings, tap targets, the
nine meta queries, structured data, images, fonts, body font sizes) and the
explicit browser.close() on the success path. -/
def auditBody : List SessAction :=
  [SessAction.launch, SessAction.newContext, SessAction.newPage,
   SessAction.navigate, SessAction.waitMs,
   SessAction.evalQuery, SessAction.evalQuery, SessAction.evalQuery,
   SessAction.evalQuery, SessAction.evalQuery, SessAction.evalQuery,
   SessAction.evalQuery, SessAction.evalQuery, SessAction.evalQuery,
   SessAction.evalQuery, SessAction.evalQuery, SessAction.evalQuery,
   SessAction.evalQuery, SessAction.evalQuery, SessAction.evalQuery,
   SessAction.evalQuery, SessAction.evalQuery,
   SessAction.closeBrowser]

/-- The with-block body of capture in capture_screenshot.py: launch, context,
page, goto, fixed wait, the evaluations (title, h1s, h2s, meta description,
ctas, scroll metrics, logos), the screenshot write and browser.close(). -/
def captureBody : List SessAction :=
  [SessAction.launch, SessAction.newContext, SessAction.newPage,
   SessAction.navigate, SessAction.waitMs,
   SessAction.evalQuery, SessAction.evalQuery, SessAction.evalQuery,
   SessAction.evalQuery, SessAction.evalQuery, SessAction.evalQuery,
   SessAction.evalQuery, SessAction.evalQuery, SessAction.evalQuery,
   SessAction.screenshotWrite,
   SessAction.closeBrowser]

/-- One invocation of audit under a failure oracle: run the body inside the
with block, then the scoped exit. -/
def runAudit (oracle : ℕ → Bool) : Bool × SessState :=
  let r := runSteps oracle 0 auditBody initState
  (r.1, pwExit r.2)

/-- One invocation of capture under a failure oracle. -/
def runCapture (oracle : ℕ → Bool) : Bool × SessState :=
  let r := runSteps oracle 0 captureBody initState
  (r.1, pwExit r.2)

/-- A rect for examples where only selection matters. -/
def rectEx : Rect := { top := 0, bottom := 50, left := 0, width := 50, height := 50 }

/-- Empty meta query results for example pages. -/
def emptyMetaQ : MetaQueryResults :=
  { ogTitle := none, ogDescription := none, ogImage := none, ogUrl := none,
    twitterCard := none, twitterTitle := none, canonical := none,
    robots := none, viewport := none }

/-- An audit page with every extractor input empty. -/
def emptyAuditPage : AuditPage :=
  { viewportWidth := 1440, viewportHeight := 900,
    clsSupported := true, clsEntries := [],
    headingEls := [], tapEls := [], metaQ := emptyMetaQ, ldJsonTexts := [],
    imgEls := [], fontFaces := [], textEls := [] }

/-- A capture page with every extractor input empty. -/
def emptyCapturePage : CapturePage :=
  { viewportWidth := 1440, viewportHeight := 900, title := "t",
    h1Texts := [], h2Texts := [], metaDescEl := none, ctaEls := [],
    scrollWidth := 900, clientWidth := 900, logoEls := [] }

/-- An anchor whose unrounded width 43.7 rounds to 44: tooSmall is decided on
the unrounded value, so it is reported small with rounded width 44. -/
def cexTapEl : TapEl :=
  { text := "x", tag := "A",
    rect := { top := 0, bottom := 100, left := 0, width := 437/10, height := 100 } }

/-- Audit page holding only the rounding counterexample tap target. -/
def cexTapPage : AuditPage := { emptyAuditPage with tapEls := [cexTapEl] }

/-- A comfortably large tap target used to instantiate the tap theorem. -/
def witTapEl : TapEl :=
  { text := "ok", tag := "A",
    rect := { top := 0, bottom := 10, left := 0, width := 10, height := 10 } }

/-- Audit page holding only the witness tap target. -/
def witTapPage : AuditPage := { emptyAuditPage with tapEls := [witTapEl] }

/-- A single in-viewport paragraph with computed font size 10.04: the average
rounds to 10.0, strictly below the minimum. -/
def cexFontPageA : AuditPage :=
  { emptyAuditPage with
    textEls := [{ rect := { top := 0, bottom := 20, left := 0, width := 100, height := 20 },
                  fontSizePx := 251/25 }] }

/-- Two in-viewport text elements the extractor drops: one with computed font
size 0 and one with rect height 0, so both stats are null although
in-viewport p/span/li elements exist. -/
def cexFontPageB : AuditPage :=
  { emptyAuditPage with
    textEls := [{ rect := { top := 0, bottom := 20, left := 0, width := 100, height := 20 },
                  fontSizePx := 0 },
                { rect := { top := 10, bottom := 10, left := 0, width := 100, height := 0 },
                  fontSizePx := 16 }] }

/-- A logo inside a header whose rect lies entirely above the viewport: its
bottom is negative, yet the extractor marks it visible. -/
def cexLogoEl : LogoEl :=
  { tag := "IMG", src := none, alt := none, ariaLabel := none,
    inHeader := true, inNav := false,
    rect := { top := -100, bottom := -50, left := 0, width := 50, height := 50 } }

/-- Capture page holding only the above-viewport header logo. -/
def cexLogoPage : CapturePage := { emptyCapturePage with logoEls := [cexLogoEl] }

/-- A header logo inside the viewport used to instantiate the flag theorem. -/
def witLogoEl : LogoEl :=
  { tag := "IMG", src := some "logo.svg", alt := none, ariaLabel := none,
    inHeader := true, inNav := false, rect := rectEx }

/-- Capture page holding only the witness logo. -/
def witLogoPage : CapturePage := { emptyCapturePage with logoEls := [witLogoEl] }

/-- An image whose src does not mention logo but whose alt does; it sits in
neither header nor nav, so the source filter, which only looks at the first
truthy attribute, skips it. -/
def cexLogoA : LogoEl :=
  { tag := "IMG", src := some "pic.png", alt := some "site logo", ariaLabel := none,
    inHeader := false, inNav := false, rect := rectEx }

/-- Plain logo image number one. -/
def cexLogoB : LogoEl :=
  { tag := "IMG", src := some "logo1.png", alt := none, ariaLabel := none,
    inHeader := false, inNav := false, rect := rectEx }

/-- Plain logo image number two. -/
def cexLogoC : LogoEl :=
  { tag := "IMG", src := some "logo2.png", alt := none, ariaLabel := none,
    inHeader := false, inNav := false, rect := rectEx }

/-- Plain logo image number three. -/
def cexLogoD : LogoEl :=
  { tag := "IMG", src := some "logo3.png", alt := none, ariaLabel := none,
    inHeader := false, inNav := false, rect := rectEx }

/-- Capture page where the first spec-matching element differs from the first
source-matching element, so the two first-three selections disagree. -/
def cexLogoPage4 : CapturePage :=
  { emptyCapturePage with logoEls := [cexLogoA, cexLogoB, cexLogoC, cexLogoD] }

/-- A meta element that matches the og:title selector but carries no content
attribute, as in meta property="og:title" with the value attribute missing. -/
def cexOgTitleEl : MetaEl := { attrs := [("property", "og:title")] }

/-- Audit page whose og:title query matches the attributeless element. -/
def cexMetaPage : AuditPage :=
  { emptyAuditPage with metaQ := { emptyMetaQ with ogTitle := some cexOgTitleEl } }

/-- An image with a whitespace-only alt attribute. -/
def witImgEl : ImgEl :=
  { src := some "hero.png", alt := some "  ", rect := rectEx }

/-- Audit page holding only the whitespace-alt image. -/
def witImgPage : AuditPage := { emptyAuditPage with imgEls := [witImgEl] }

/-- An accumulated layout-shift total of 0.00004, which rounds to 0 at four
decimal places. -/
def cexClsPage : AuditPage :=
  { emptyAuditPage with clsSupported := true, clsEntries := [1/25000] }

/-! Helper lemmas about the rounding functions, list minima and sums, and
string lengths, shared by the claim theorems below. -/

theorem rInt_ge (x : ℚ) : x - 1/2 ≤ (rInt x : ℚ) := by
  have h1 : ((⌊x⌋ : ℤ) : ℚ) ≤ x := Int.floor_le x
  have h2 : x < ((⌊x⌋ : ℤ) : ℚ) + 1 := Int.lt_floor_add_one x
  unfold rInt
  split_ifs <;> push_cast <;> linarith

theorem rInt_nonneg (x : ℚ) (h : 0 ≤ x) : 0 ≤ rInt x := by
  have hf : 0 ≤ ⌊x⌋ := Int.floor_nonneg.mpr h
  unfold rInt
  split_ifs <;> omega

theorem pyRound_one_ge (x : ℚ) : x - 1/20 ≤ pyRound 1 x := by
  have h10 : (0:ℚ) < 10 ^ 1 := by norm_num
  unfold pyRound
  rw [le_div_iff₀ h10]
  have h := rInt_ge (x * 10 ^ 1)
  linarith

theorem pyRound_nonneg (d : ℕ) (x : ℚ) (h : 0 ≤ x) : 0 ≤ pyRound d x := by
  unfold pyRound
  apply div_nonneg
  · exact_mod_cast rInt_nonneg _ (by positivity)
  · positivity

theorem jsRound_le_of_lt {x : ℚ} {n : ℤ} (h : x < (n : ℚ)) : jsRound x ≤ n := by
  unfold jsRound
  have h2 : ⌊x + 1/2⌋ < n + 1 := Int.floor_lt.mpr (by push_cast; linarith)
  omega

theorem foldl_min_le (xs : List ℚ) (a : ℚ) : xs.foldl min a ≤ a := by
  induction xs generalizing a with
  | nil => simp
  | cons x tl ih => exact le_trans (ih (min a x)) (min_le_left a x)

theorem foldl_min_le_mem (xs : List ℚ) (a x : ℚ) (hx : x ∈ xs) : xs.foldl min a ≤ x := by
  induction xs generalizing a with
  | nil => cases hx
  | cons y tl ih =>
    rcases List.mem_cons.mp hx with h | h
    · subst h
      exact le_trans (foldl_min_le tl (min a x)) (min_le_right a x)
    · exact ih (min a y) h

theorem pyMin_le {l : List ℚ} {m x : ℚ} (hm : pyMin l = some m) (hx : x ∈ l) : m ≤ x := by
  cases l with
  | nil => cases hm
  | cons y tl =>
    simp only [pyMin, Option.some.injEq] at hm
    subst hm
    rcases List.mem_cons.mp hx with h | h
    · subst h
      exact foldl_min_le tl x
    · exact foldl_min_le_mem tl y x h

theorem length_mul_min_le_sum (l : List ℚ) (m : ℚ) (h : ∀ x ∈ l, m ≤ x) :
    (l.length : ℚ) * m ≤ l.sum := by
  induction l with
  | nil => simp
  | cons x tl ih =>
    have hx : m ≤ x := h x (List.mem_cons_self x tl)
    have ih2 := ih (fun y hy => h y (List.mem_cons_of_mem x hy))
    simp only [List.length_cons, List.sum_cons]
    push_cast
    linarith

theorem pyMin_le_pyAvg1 {l : List ℚ} {m a : ℚ} (hm : pyMin l = some m) (ha : pyAvg1 l = some a) :
    m ≤ a + 1/20 := by
  cases l with
  | nil => cases hm
  | cons x tl =>
    have hmem : ∀ y ∈ x :: tl, m ≤ y := fun y hy => pyMin_le hm hy
    have hlen : (0:ℚ) < ((x :: tl).length : ℚ) := by
      have : 0 < (x :: tl).length := List.length_pos_of_mem (List.mem_cons_self x tl)
      exact_mod_cast this
    have hsum := length_mul_min_le_sum (x :: tl) m hmem
    have hmean : m ≤ (x :: tl).sum / ((x :: tl).length : ℚ) := by
      rw [le_div_iff₀ hlen]
      linarith
    have ha2 : pyRound 1 ((x :: tl).sum / ((x :: tl).length : ℚ)) = a := by
      simpa only [pyAvg1, Option.some.injEq] using ha
    have hr := pyRound_one_ge ((x :: tl).sum / ((x :: tl).length : ℚ))
    rw [ha2] at hr
    linarith

theorem pyMin_eq_none_iff (l : List ℚ) : pyMin l = none ↔ l = [] := by
  cases l <;> simp [pyMin]

theorem pyAvg1_eq_none_iff (l : List ℚ) : pyAvg1 l = none ↔ l = [] := by
  cases l <;> simp [pyAvg1]

theorem strLength_pos_iff (s : String) : 0 < s.length ↔ s ≠ "" := by
  cases s with
  | mk d =>
    cases d with
    | nil => simp [String.length]
    | cons c tl =>
      simp only [String.length, List.length_cons]
      constructor
      · intro _ heq
        have : (c :: tl) = ([] : List Char) := congrArg String.data heq
        cases this
      · intro _
        exact Nat.succ_pos _

/-- Booleans produced by two decides joined with the and operator agree with
the decide of the conjunction. -/
theorem decide_and_eq (p q : Prop) [Decidable p] [Decidable q] :
    (decide p && decide q) = decide (p ∧ q) := by
  by_cases hp : p <;> by_cases hq : q <;> simp [hp, hq]

/-- The body_font_sizes list is empty exactly when no matched text element is
in viewport with positive rect height and positive computed font size. -/
theorem bodyFontSizes_eq_nil_iff (vh : ℚ) (els : List TextEl) :
    bodyFontSizes vh els = [] ↔
      ¬ ∃ e ∈ els, e.rect.top < vh ∧ 0 < e.rect.bottom ∧ 0 < e.rect.height ∧ 0 < e.fontSizePx := by
  constructor
  · intro h hex
    obtain ⟨e, he, h1, h2, h3, h4⟩ := hex
    have hmem : e.fontSizePx ∈ bodyFontSizes vh els := by
      unfold bodyFontSizes
      refine List.mem_filter.mpr ⟨List.mem_map.mpr ⟨e, List.mem_filter.mpr ⟨he, ?_⟩, rfl⟩, ?_⟩
      · simp [h1, h2, h3]
      · simpa using h4
    rw [h] at hmem
    cases hmem
  · intro h
    rw [List.eq_nil_iff_forall_not_mem]
    intro s hs
    unfold bodyFontSizes at hs
    obtain ⟨hs1, hs2⟩ := List.mem_filter.mp hs
    obtain ⟨e, he, rfl⟩ := List.mem_map.mp hs1
    obtain ⟨he1, he2⟩ := List.mem_filter.mp he
    simp only [Bool.and_eq_true, decide_eq_true_eq] at he2
    simp only [decide_eq_true_eq] at hs2
    exact h ⟨e, he1, he2.1.1, he2.1.2, he2.2, hs2⟩

/-- If the with-block body stops at a failed navigation, the launched browser
is still open when control leaves the body: only the scoped exit of the
context manager reclaims it on failure paths. -/
theorem runSteps_navigate_fail_keeps_browser :
    (runSteps (fun i => i == 3) 0 auditBody initState).2.browserOpen = true := by
  decide

/-- Claim C1, as stated, is false on the code: the tap-target entry built from
an anchor of unrounded width 43.7 and height 100 is reported in
small_tap_targets with rounded width 44 and height 100, and satisfies neither
width < 44 nor height < 44 on its reported fields. -/
theorem audit_tap_targets_cex :
    ¬ (∀ t ∈ (audit ("u") cexTapPage).small_tap_targets_sample,
        t.width < 44 ∨ t.height < 44) := by
  intro hall
  have h1 : (audit ("u") cexTapPage).small_tap_targets_sample = [mkTapTarget cexTapEl] := by
    norm_num +decide [audit, cexTapPage, emptyAuditPage, smallTargets, tapTargets,
      mkTapTarget, cexTapEl, jsRound, List.filter]
  have h2 := hall (mkTapTarget cexTapEl) (by rw [h1]; exact List.mem_singleton_self _)
  have h3 : mkTapTarget cexTapEl =
      { text := "x", tag := "A", width := 44, height := 100, top := 0, tooSmall := true } := by
    norm_num +decide [mkTapTarget, cexTapEl, jsRound, jsTake, jsTrim]
  rw [h3] at h2
  rcases h2 with h | h <;> simp at h

/-- Claim C1 (amended): every element of small_tap_targets is an element of
tap_targets with tooSmall true, that is its source element has unrounded
width < 44 or unrounded height < 44, which on the reported rounded fields
guarantees width at most 44 or height at most 44; every element of the
reported sample comes from small_tap_targets; and no element with zero (or
negative) rounded width or height appears in tap_targets. -/
theorem audit_tap_targets (url : String) (pg : AuditPage) :
    (∀ t ∈ smallTargets pg.tapEls,
        t ∈ tapTargets pg.tapEls ∧ t.tooSmall = true ∧ (t.width ≤ 44 ∨ t.height ≤ 44)
        ∧ ∃ e ∈ pg.tapEls, t = mkTapTarget e ∧ (e.rect.width < 44 ∨ e.rect.height < 44))
    ∧ (∀ t ∈ (audit url pg).small_tap_targets_sample, t ∈ smallTargets pg.tapEls)
    ∧ (∀ t ∈ tapTargets pg.tapEls, 0 < t.width ∧ 0 < t.height) := by
  refine ⟨?_, ?_, ?_⟩
  · intro t ht
    obtain ⟨htap, htoo⟩ := List.mem_filter.mp ht
    obtain ⟨hmap, hpos⟩ := List.mem_filter.mp htap
    obtain ⟨e, he, heq⟩ := List.mem_map.mp hmap
    subst heq
    have hraw : e.rect.width < 44 ∨ e.rect.height < 44 := by
      simpa [mkTapTarget] using htoo
    refine ⟨htap, htoo, ?_, e, he, rfl, hraw⟩
    rcases hraw with h | h
    · exact Or.inl (jsRound_le_of_lt (by exact_mod_cast h))
    · exact Or.inr (jsRound_le_of_lt (by exact_mod_cast h))
  · intro t ht
    have h2 : (audit url pg).small_tap_targets_sample = (smallTargets pg.tapEls).take 5 := rfl
    rw [h2] at ht
    exact List.take_subset _ _ ht
  · intro t ht
    obtain ⟨-, hpos⟩ := List.mem_filter.mp ht
    simpa using hpos

/-- Witness for claim C1 at a 10 by 10 anchor on a one-element page. -/
theorem audit_tap_targets_witness :
    0 < (mkTapTarget witTapEl).width ∧ 0 < (mkTapTarget witTapEl).height :=
  (audit_tap_targets ("u") witTapPage).2.2 (mkTapTarget witTapEl)
    (by norm_num +decide [tapTargets, mkTapTarget, witTapPage, witTapEl, emptyAuditPage,
          jsRound, List.filter])

/-- Claim C2, as stated, is false on the code twice over: on a page whose one
in-viewport paragraph has computed font size 10.04 the minimum is 10.04 while
the average, rounded to one decimal, is 10.0, so the minimum exceeds the
average; and on a page with in-viewport p/span/li elements whose computed font
size or rect height is zero, both statistics are null although in-viewport
elements exist, refuting the stated equivalence. -/
theorem audit_font_stats_cex :
    ((audit ("u") cexFontPageA).min_above_fold_font_px = some (251/25)
      ∧ (audit ("u") cexFontPageA).avg_above_fold_font_px = some 10
      ∧ ¬ ((251/25 : ℚ) ≤ 10))
    ∧ ¬ (((audit ("u") cexFontPageB).min_above_fold_font_px = none
          ∧ (audit ("u") cexFontPageB).avg_above_fold_font_px = none)
        ↔ ¬ ∃ e ∈ cexFontPageB.textEls,
            e.rect.top < (cexFontPageB.viewportHeight : ℚ) ∧ 0 < e.rect.bottom) := by
  refine ⟨⟨?_, ?_, by norm_num⟩, ?_⟩
  · norm_num +decide [audit, cexFontPageA, emptyAuditPage, bodyFontSizes, pyMin, List.filter]
  · norm_num +decide [audit, cexFontPageA, emptyAuditPage, bodyFontSizes, pyAvg1, pyRound,
      rInt, List.filter]
  · intro hiff
    have hnone : (audit ("u") cexFontPageB).min_above_fold_font_px = none
        ∧ (audit ("u") cexFontPageB).avg_above_fold_font_px = none := by
      constructor
      · norm_num +decide [audit, cexFontPageB, emptyAuditPage, bodyFontSizes, pyMin, List.filter]
      · norm_num +decide [audit, cexFontPageB, emptyAuditPage, bodyFontSizes, pyAvg1, List.filter]
    have hex : ∃ e ∈ cexFontPageB.textEls,
        e.rect.top < (cexFontPageB.viewportHeight : ℚ) ∧ 0 < e.rect.bottom := by
      norm_num [cexFontPageB, emptyAuditPage]
    exact (hiff.mp hnone) hex

/-- Claim C2 (amended): whenever both font statistics are non-null the
minimum is at most the average plus 0.05, the largest deficit the one-decimal
rounding of the average can introduce; and both statistics are null exactly
when no in-viewport p/span/li element with positive rect height and positive
computed font size exists. -/
theorem audit_font_stats (url : String) (pg : AuditPage) :
    (∀ m a, (audit url pg).min_above_fold_font_px = some m →
        (audit url pg).avg_above_fold_font_px = some a → m ≤ a + 1/20)
    ∧ ((audit url pg).min_above_fold_font_px = none
        ∧ (audit url pg).avg_above_fold_font_px = none ↔
        ¬ ∃ e ∈ pg.textEls, e.rect.top < (pg.viewportHeight : ℚ) ∧ 0 < e.rect.bottom ∧
          0 < e.rect.height ∧ 0 < e.fontSizePx) := by
  constructor
  · intro m a hm ha
    exact pyMin_le_pyAvg1 hm ha
  · show pyMin (bodyFontSizes (pg.viewportHeight : ℚ) pg.textEls) = none
        ∧ pyAvg1 (bodyFontSizes (pg.viewportHeight : ℚ) pg.textEls) = none ↔ _
    rw [pyMin_eq_none_iff, pyAvg1_eq_none_iff, and_self]
    exact bodyFontSizes_eq_nil_iff _ _

/-- Witness for claim C2 on the 10.04 page: 10.04 is at most 10 + 0.05. -/
theorem audit_font_stats_witness : (251/25 : ℚ) ≤ 10 + 1/20 :=
  (audit_font_stats ("u") cexFontPageA).1 (251/25) 10
    (by norm_num +decide [audit, cexFontPageA, emptyAuditPage, bodyFontSizes, pyMin, List.filter])
    (by norm_num +decide [audit, cexFontPageA, emptyAuditPage, bodyFontSizes, pyAvg1, pyRound,
          rInt, List.filter])

/-- Claim C3, as stated, is false on the code: a header logo lying entirely
above the viewport, top -100 and bottom -50, is reported with visible true,
although top < viewportHeight AND bottom > 0 is false for it, because the
logo extractor omits the bottom test. -/
theorem visibility_flags_cex :
    ¬ (∀ l ∈ (captureReport cexLogoPage).logo_candidates, ∃ e ∈ cexLogoPage.logoEls,
        l.visible = decide (e.rect.top < (cexLogoPage.viewportHeight : ℚ)
          ∧ 0 < e.rect.bottom)) := by
  decide

/-- Claim C3 (amended): every extracted heading and CTA candidate carries a
flag equal to top < viewportHeight AND bottom > 0 for its source rect, while
every logo candidate carries visible equal to top < viewportHeight only. -/
theorem visibility_flags (url : String) (pg : AuditPage) (cpg : CapturePage) :
    (∀ h ∈ (audit url pg).headings, ∃ e ∈ pg.headingEls,
        h = mkHeading (pg.viewportHeight : ℚ) e
        ∧ h.aboveFold = decide (e.rect.top < (pg.viewportHeight : ℚ) ∧ 0 < e.rect.bottom))
    ∧ (∀ c ∈ (captureReport cpg).ctas, ∃ e ∈ cpg.ctaEls,
        c = mkCta (cpg.viewportHeight : ℚ) e
        ∧ c.visible = decide (e.rect.top < (cpg.viewportHeight : ℚ) ∧ 0 < e.rect.bottom))
    ∧ (∀ l ∈ (captureReport cpg).logo_candidates, ∃ e ∈ cpg.logoEls,
        l = mkLogo (cpg.viewportHeight : ℚ) e
        ∧ l.visible = decide (e.rect.top < (cpg.viewportHeight : ℚ))) := by
  refine ⟨?_, ?_, ?_⟩
  · intro h hh
    have hh2 : h ∈ pg.headingEls.map (mkHeading (pg.viewportHeight : ℚ)) := hh
    obtain ⟨e, he, heq⟩ := List.mem_map.mp hh2
    subst heq
    exact ⟨e, he, rfl, decide_and_eq _ _⟩
  · intro c hc
    have hc2 : c ∈ ((cpg.ctaEls.filter ctaMatch).take 8).map (mkCta (cpg.viewportHeight : ℚ)) := hc
    obtain ⟨e, he, heq⟩ := List.mem_map.mp hc2
    subst heq
    have he2 : e ∈ cpg.ctaEls := List.filter_subset' _ (List.take_subset _ _ he)
    exact ⟨e, he2, rfl, decide_and_eq _ _⟩
  · intro l hl
    have hl2 : l ∈ ((cpg.logoEls.filter logoPred).take 3).map (mkLogo (cpg.viewportHeight : ℚ)) := hl
    obtain ⟨e, he, heq⟩ := List.mem_map.mp hl2
    subst heq
    have he2 : e ∈ cpg.logoEls := List.filter_subset' _ (List.take_subset _ _ he)
    exact ⟨e, he2, rfl, rfl⟩

/-- Witness for claim C3 at an in-viewport header logo. -/
theorem visibility_flags_witness :
    ∃ e ∈ witLogoPage.logoEls,
      mkLogo (witLogoPage.viewportHeight : ℚ) witLogoEl
        = mkLogo (witLogoPage.viewportHeight : ℚ) e
      ∧ (mkLogo (witLogoPage.viewportHeight : ℚ) witLogoEl).visible
        = decide (e.rect.top < (witLogoPage.viewportHeight : ℚ)) :=
  (visibility_flags ("u") emptyAuditPage witLogoPage).2.2
    (mkLogo (witLogoPage.viewportHeight : ℚ) witLogoEl) (by decide)

/-- Claim C4, as stated, is false on the code: on a page whose og:title
selector matches an element that carries no content attribute, the og_title
field of the report is null although the selector matched, because
get_attribute returns null for an absent attribute. -/
theorem audit_meta_fields_cex :
    ¬ ((cexMetaPage.metaQ.ogTitle).isSome = true →
        ¬ ((audit ("u") cexMetaPage).meta.og_title = none)) := by
  decide

/-- Claim C4 (amended): each of the nine meta fields of the audit report is
the value of the content attribute (href for canonical) of the element its
selector matched, hence a string exactly when the selector matched and the
matched element carries the attribute, and null when the selector did not
match or the attribute is absent; an absent selector never raises and never
drops the key. -/
theorem audit_meta_fields (url : String) (pg : AuditPage) :
    (audit url pg).meta = metaBlock pg.metaQ
    ∧ (∀ q : Option MetaEl, ∀ a : String,
        (get_meta q a = none ↔ q = none ∨ ∃ e, q = some e ∧ getAttr e a = none)
        ∧ (∀ s : String, get_meta q a = some s ↔ ∃ e, q = some e ∧ getAttr e a = some s)) := by
  refine ⟨rfl, ?_⟩
  intro q a
  cases q with
  | none => simp [get_meta]
  | some e => simp [get_meta]

/-- Claim C5, as stated, is false on the code: on a page whose first img has
src pic.png and alt site logo outside any header or nav, followed by three
images whose src mentions logo, the report contains the candidate built from
the fourth image, which is not among the first three elements matching the
stated predicate, because the source filter only inspects the first truthy
attribute of src, alt and aria-label. -/
theorem capture_logo_candidates_cex :
    ¬ (∀ l ∈ (captureReport cexLogoPage4).logo_candidates,
        l ∈ ((cexLogoPage4.logoEls.filter specLogoPred).take 3).map
            (mkLogo (cexLogoPage4.viewportHeight : ℚ))) := by
  decide

/-- Claim C5 (amended): logo_candidates is exactly the first three img/svg
elements that lie inside a header or nav ancestor or whose first truthy
attribute among src, alt and aria-label mentions the substring logo
case-insensitively, mapped to candidate records; in particular it has at most
three entries and every entry comes from an element passing that filter. -/
theorem capture_logo_candidates (cpg : CapturePage) :
    (captureReport cpg).logo_candidates
        = ((cpg.logoEls.filter logoPred).take 3).map (mkLogo (cpg.viewportHeight : ℚ))
    ∧ (captureReport cpg).logo_candidates.length ≤ 3
    ∧ (∀ l ∈ (captureReport cpg).logo_candidates, ∃ e ∈ cpg.logoEls,
        logoPred e = true ∧ l = mkLogo (cpg.viewportHeight : ℚ) e) := by
  refine ⟨rfl, ?_, ?_⟩
  · have h : (captureReport cpg).logo_candidates.length
        = min 3 (cpg.logoEls.filter logoPred).length := by
      simp [captureReport, logoCandidates]
    omega
  · intro l hl
    have hl2 : l ∈ ((cpg.logoEls.filter logoPred).take 3).map (mkLogo (cpg.viewportHeight : ℚ)) := hl
    obtain ⟨e, he, heq⟩ := List.mem_map.mp hl2
    subst heq
    have h1 : e ∈ cpg.logoEls.filter logoPred := List.take_subset _ _ he
    obtain ⟨h2, h3⟩ := List.mem_filter.mp h1
    exact ⟨e, h2, h3, rfl⟩

/-- Witness for claim C5 at an in-header logo on a one-element page. -/
theorem capture_logo_candidates_witness :
    ∃ e ∈ witLogoPage.logoEls, logoPred e = true
      ∧ mkLogo (witLogoPage.viewportHeight : ℚ) witLogoEl
        = mkLogo (witLogoPage.viewportHeight : ℚ) e :=
  (capture_logo_candidates witLogoPage).2.2
    (mkLogo (witLogoPage.viewportHeight : ℚ) witLogoEl) (by decide)

/-- Claim C6: images_missing_alt is exactly the sublist of images whose
hasAlt field is false, and for every reported image hasAlt is true exactly
when its alt attribute is non-null and not pure whitespace after trimming. -/
theorem audit_images_alt (url : String) (pg : AuditPage) :
    (audit url pg).images_missing_alt = (audit url pg).images.filter (fun i => !i.hasAlt)
    ∧ (∀ i ∈ (audit url pg).images, i.hasAlt = true ↔ ∃ s, i.alt = some s ∧ jsTrim s ≠ "") := by
  refine ⟨rfl, ?_⟩
  intro i hi
  have hi2 : i ∈ pg.imgEls.map mkImage := hi
  obtain ⟨e, he, heq⟩ := List.mem_map.mp hi2
  subst heq
  cases halt : e.alt with
  | none =>
    simp [mkImage, truthyOr, halt, jsTrim]
  | some s =>
    by_cases hs : s = ""
    · subst hs
      simp [mkImage, truthyOr, halt, jsTrim]
    · have ht : truthyOr (some s) "" = s := by simp [truthyOr, hs]
      simp only [mkImage, ht, halt, Option.some.injEq]
      constructor
      · intro h
        obtain h2 := (strLength_pos_iff (jsTrim s)).mp (by simpa using h)
        exact ⟨s, rfl, h2⟩
      · intro ⟨s2, hs2, hne⟩
        subst hs2
        simpa using (strLength_pos_iff (jsTrim s)).mpr hne

/-- Witness for claim C6 at an image whose alt attribute is two spaces. -/
theorem audit_images_alt_witness :
    (mkImage witImgEl).hasAlt = true ↔ ∃ s, (mkImage witImgEl).alt = some s ∧ jsTrim s ≠ "" :=
  (audit_images_alt ("u") witImgPage).2 (mkImage witImgEl)
    (by norm_num +decide [audit, witImgPage, witImgEl, emptyAuditPage, mkImage, jsRound])

/-- Claim C7, as stated, is false on the code in one detail: the reported
cls_score is the entry-value sum rounded to four decimal places, not the sum
itself; with a single layout-shift entry of value 0.00004 the sum is 0.00004
while the report carries 0. -/
theorem audit_cls_score_cex :
    (audit ("u") cexClsPage).cls_score ≠ cexClsPage.clsEntries.sum := by
  have h1 : (audit ("u") cexClsPage).cls_score = 0 := by
    norm_num +decide [audit, cexClsPage, emptyAuditPage, clsRaw, pyRound, rInt]
  have h2 : cexClsPage.clsEntries.sum = 1/25000 := by
    norm_num [cexClsPage, emptyAuditPage]
  rw [h1, h2]
  norm_num

/-- Claim C7 (amended): the reported cls_score is the sum of the accumulated
layout-shift entry values rounded to four decimal places; when the
performance API is unsupported or the query throws the raw value is 0, never
an error; and under the layout-shift API guarantee that entry values are
non-negative the reported cls_score is non-negative. -/
theorem audit_cls_score (url : String) (pg : AuditPage) :
    (audit url pg).cls_score = pyRound 4 (clsRaw pg.clsSupported pg.clsEntries)
    ∧ clsRaw false pg.clsEntries = 0
    ∧ ((∀ v ∈ pg.clsEntries, 0 ≤ v) → 0 ≤ (audit url pg).cls_score) := by
  refine ⟨rfl, rfl, ?_⟩
  intro h
  have ho : 0 ≤ clsRaw pg.clsSupported pg.clsEntries := by
    unfold clsRaw
    split
    · exact List.sum_nonneg h
    · exact le_refl 0
  exact pyRound_nonneg 4 _ ho

/-- Witness for claim C7 on the page with one layout-shift entry 0.00004. -/
theorem audit_cls_score_witness : 0 ≤ (audit ("u") cexClsPage).cls_score :=
  (audit_cls_score ("u") cexClsPage).2.2
    (by norm_num [cexClsPage, emptyAuditPage])

/-- Claim C8: on every exit path of audit and capture, success or a raising
step anywhere in the body, the launched browser process is down when the call
returns or the exception propagates: the scoped exit of the with block closes
driver and browser on every path, and on the success path browser.close has
already closed the browser before the block is left. -/
theorem session_teardown (oracle : ℕ → Bool) :
    ((runAudit oracle).2.browserOpen = false ∧ (runAudit oracle).2.pwRunning = false)
    ∧ ((runCapture oracle).2.browserOpen = false ∧ (runCapture oracle).2.pwRunning = false)
    ∧ (runSteps (fun _ => false) 0 auditBody initState).2.browserOpen = false
    ∧ (runSteps (fun _ => false) 0 captureBody initState).2.browserOpen = false := by
  exact ⟨⟨rfl, rfl⟩, ⟨rfl, rfl⟩, by decide, by decide⟩

/-- Claim C9: the reported h2s list is the first five trimmed h2 texts in
document order, so its length is the minimum of 5 and the number of h2
elements, while h1s is the full trimmed h1 text list, unbounded. -/
theorem capture_h2_truncation (cpg : CapturePage) :
    (captureReport cpg).h2s = (cpg.h2Texts.map jsTrim).take 5
    ∧ (captureReport cpg).h2s.length = min 5 cpg.h2Texts.length
    ∧ (captureReport cpg).h1s = cpg.h1Texts.map jsTrim
    ∧ (captureReport cpg).h1s.length = cpg.h1Texts.length := by
  refine ⟨rfl, ?_, rfl, ?_⟩
  · show ((cpg.h2Texts.map jsTrim).take 5).length = min 5 cpg.h2Texts.length
    simp
  · show (cpg.h1Texts.map jsTrim).length = cpg.h1Texts.length
    simp

/-- Claim C10: the audit report exposes small_tap_targets_count, the number
of tap targets with tooSmall true, and small_tap_targets_sample, the prefix
of that list of length min 5 count, rather than the full list. -/
theorem audit_small_sample_shape (url : String) (pg : AuditPage) :
    (audit url pg).small_tap_targets_count
        = ((tapTargets pg.tapEls).filter (fun t => t.tooSmall)).length
    ∧ (audit url pg).small_tap_targets_sample.length
        = min 5 ((audit url pg).small_tap_targets_count)
    ∧ (audit url pg).small_tap_targets_sample ++ (smallTargets pg.tapEls).drop 5
        = smallTargets pg.tapEls := by
  refine ⟨rfl, ?_, ?_⟩
  · show ((smallTargets pg.tapEls).take 5).length = min 5 (smallTargets pg.tapEls).length
    simp
  · exact List.take_append_drop 5 (smallTargets pg.tapEls)
